import Mathlib

/-!
Verification of the SparkFun AS3935 lightning-detector driver's register
access layer.

The repository ships the class header `src/SparkFun_AS3935.h`, which fixes
the register map, the bit masks, the device addresses and the per-operation
register/field documentation.  The implementation file is not part of the
sources available here, so every operation body below is modelled from the
specification's description of the register engine and of the named
operations ("Modelled from the spec" doc comments); the constants are taken
verbatim from the header.

Chip registers are modelled as a total map from 8-bit addresses to bytes;
machine bytes are `Nat` values with explicit `< 256` bounds where the
reasoning needs them.
-/

namespace AS3935

/-- Register addresses, from `enum SF_AS3935_REGISTER_NAMES` in the header. -/
def AFE_GAIN : Nat := 0x00

def THRESHOLD : Nat := 0x01

def LIGHTNING_REG : Nat := 0x02

def INT_MASK_ANT : Nat := 0x03

def ENERGY_LIGHT_LSB : Nat := 0x04

def ENERGY_LIGHT_MSB : Nat := 0x05

def ENERGY_LIGHT_MMSB : Nat := 0x06

def DISTANCE : Nat := 0x07

def FREQ_DISP_IRQ : Nat := 0x08

def CALIB_TRCO : Nat := 0x3A

def CALIB_SRCO : Nat := 0x3B

def DEFAULT_RESET : Nat := 0x3C

def CALIB_RCO : Nat := 0x3D

/-- Register masks, from `enum SF_AS3935_REGSTER_MASKS` in the header. -/
def GAIN_MASK : Nat := 0xF

def SPIKE_MASK : Nat := 0xF

def DISTANCE_MASK : Nat := 0xC0

def INT_MASK : Nat := 0xF0

def ENERGY_MASK : Nat := 0xF0

def FLOOR_MASK : Nat := 0x07

def OSC_MASK : Nat := 0xE0

def CAP_MASK : Nat := 0xF

def SPI_READ_M : Nat := 0x40

def CALIB_MASK : Nat := 0x7F

def DIV_MASK : Nat := 0x3F

/-- Shared-bus device addresses, from `enum SF_AS3935_I2C_ADDRESS`:
both address-select pins high. -/
def AS3935_DEFAULT_ADDRESS : Nat := 0x03

/-- ADD1 high, ADD0 low. -/
def AS3935_ADDRESS_ADD1_H : Nat := 0x02

/-- ADD1 low, ADD0 high. -/
def AS3935_ADDRESS_ADD0_H : Nat := 0x01

/-- Both address-select pins low. -/
def AS3935_ADDRESS_LOW : Nat := 0x00

/-- Interrupt status values, from `enum INTERRUPT_STATUS` in the header. -/
def NOISE_TO_HIGH : Nat := 0x01

def DISTURBER_DETECT : Nat := 0x04

def LIGHTNING : Nat := 0x08

/-- Indoor AFE gain setting (`#define INDOOR 0x12`). -/
def INDOOR : Nat := 0x12

/-- Outdoor AFE gain setting (`#define OUTDOOR 0xE`). -/
def OUTDOOR : Nat := 0xE

/-- Direct-command byte (`#define DIRECT_COMMAND 0x96`). -/
def DIRECT_COMMAND : Nat := 0x96

/-- The chip's register file: one byte per 8-bit address. -/
abbrev RegFile := Nat → Nat

/-- Modelled from the spec: `readRegister(address, length)` performs a
transport-appropriate read and returns the raw register byte with no
interpretation, retaining only the first of `length` bytes.  The
implementation body is absent from the sources; this is §4.2's contract. -/
def readRegister (regs : RegFile) (reg _len : Nat) : Nat :=
  regs reg

/-- Modelled from the spec: `writeRegister(address, mask, bits, shift)` is a
read-modify-write — read the current byte at `address`, clear the bits
selected by `mask`, OR in `(bits << shift) & mask`, and write the result
back.  The implementation body is absent from the sources; this is §4.2's
algorithm, with the 8-bit complement of `mask` written `255 ^^^ mask`. -/
def writeRegister (regs : RegFile) (reg mask bits startPosition : Nat) : RegFile :=
  fun a =>
    if a = reg then
      (readRegister regs reg 1 &&& (255 ^^^ mask)) ||| ((bits <<< startPosition) &&& mask)
    else regs a

/-- Modelled from the spec: `watchdogThreshold(sensitivity)` is a masked
write of REG0x01 bits [3:0] (header comment), via the register engine. -/
def watchdogThreshold (regs : RegFile) (sensitivity : Nat) : RegFile :=
  writeRegister regs THRESHOLD SPIKE_MASK sensitivity 0

/-- Modelled from the spec: `setIndoorOutdoor(setting)` is a masked write of
REG0x00 bits [5:1] (header comment), via the register engine. -/
def setIndoorOutdoor (regs : RegFile) (setting : Nat) : RegFile :=
  writeRegister regs AFE_GAIN 0x3E setting 1

/-- Modelled from the spec: `lightningThreshold(strikes)` validates the
requested strike count against the chip's legal set {1, 5, 9, 16} (header
comment for REG0x02 bits [5:4]) and performs the masked write only for a
legal value, encoding 1, 5, 9, 16 as field values 0, 1, 2, 3. -/
def lightningThreshold (regs : RegFile) (strikes : Nat) : RegFile :=
  if strikes = 1 then writeRegister regs LIGHTNING_REG 0x30 0 4
  else if strikes = 5 then writeRegister regs LIGHTNING_REG 0x30 1 4
  else if strikes = 9 then writeRegister regs LIGHTNING_REG 0x30 2 4
  else if strikes = 16 then writeRegister regs LIGHTNING_REG 0x30 3 4
  else regs

/-- Decoding of the REG0x02 bits [5:4] field back to a strike count. -/
def strikeCount (enc : Nat) : Nat :=
  if enc = 0 then 1 else if enc = 1 then 5 else if enc = 2 then 9 else 16

/-- Modelled from the spec: `readInterruptReg()` reads the interrupt-status
register REG0x03 and returns it masked to the status bits — noise-too-high,
disturber-detected, lightning-detected (§4.3). -/
def readInterruptReg (regs : RegFile) : Nat :=
  readRegister regs INT_MASK_ANT 1 &&& (NOISE_TO_HIGH ||| DISTURBER_DETECT ||| LIGHTNING)

/-- Modelled from the spec: `distanceToStorm()` is a masked read of REG0x07
bits [5:0] (header comment), clearing the `DISTANCE_MASK` bits. -/
def distanceToStorm (regs : RegFile) : Nat :=
  readRegister regs DISTANCE 1 &&& (255 ^^^ DISTANCE_MASK)

/-- Modelled from the spec: `lightningEnergy()` reads the LSB/MSB/MMSB
registers and composes `energy = LSB | (MSB << 8) | ((MMSB & 0x1F) << 16)`
(§4.3), matching the header's field layout (MMSB holds bits [4:0]). -/
def lightningEnergy (regs : RegFile) : Nat :=
  readRegister regs ENERGY_LIGHT_LSB 1 |||
    (readRegister regs ENERGY_LIGHT_MSB 1 <<< 8) |||
    ((readRegister regs ENERGY_LIGHT_MMSB 1 &&& 0x1F) <<< 16)

/-- Register file holding the three energy fragment registers. -/
def energyRegs (l m mm : Nat) : RegFile :=
  fun a =>
    if a = ENERGY_LIGHT_LSB then l
    else if a = ENERGY_LIGHT_MSB then m
    else if a = ENERGY_LIGHT_MMSB then mm
    else 0

/-- Outcome of the wake-up sequence: the chip registers after the two
command writes, the fixed delay waited before the status read, the number
of calibration-status reads issued, and the reported result. -/
structure WakeResult where
  regs : RegFile
  delayMs : Nat
  statusReads : Nat
  ok : Bool

/-- Modelled from the spec: `wakeUp()` clears the power-down bit (REG0x00
bit 0), issues the fixed direct command to the oscillator-calibration
register REG0x3D, waits the fixed 2 ms delay, then performs a single read
of the calibration-status register REG0x3A and reports success exactly when
the recalibration-complete bit (bit 7, per the header) is set (§4.4).
`calibStatus` is the byte that single post-delay read returns. -/
def wakeUp (regs : RegFile) (calibStatus : Nat) : WakeResult :=
  let afterWake := writeRegister regs AFE_GAIN 0x01 0 0
  let afterCmd := writeRegister afterWake CALIB_RCO 0xFF DIRECT_COMMAND 0
  { regs := afterCmd
    delayMs := 2
    statusReads := 1
    ok := calibStatus.testBit 7 }

/-- Driver-side state touched by dedicated-line initialization: the stored
chip-select pin and clock speed, the pin configuration, and the chip's own
registers. -/
structure SPISetup where
  csPin : Nat
  clockSpeed : Nat
  csIsOutput : Bool
  csHigh : Bool
  chip : RegFile

/-- Modelled from the spec: `beginSPI(user_CSPin, spiPortSpeed, spiPort)`
binds dedicated-line mode, configures the chip-select line as an output
held high between transactions, performs a handshake read and succeeds
exactly when the returned byte matches the expected pattern; it writes
nothing to the chip (§4.1, §8).  `handshakeByte` is what the handshake read
returned and `expected` the pattern it is checked against. -/
def beginSPI (s : SPISetup) (user_CSPin spiPortSpeed handshakeByte expected : Nat) :
    SPISetup × Bool :=
  ({ csPin := user_CSPin
     clockSpeed := spiPortSpeed
     csIsOutput := true
     csHigh := true
     chip := s.chip },
   handshakeByte == expected)

/-- Mapping from the two address-select pins to the device address, from
the header's comments on `SF_AS3935_I2C_ADDRESS`. -/
def addressFor (add1 add0 : Bool) : Nat :=
  if add1 then
    if add0 then AS3935_DEFAULT_ADDRESS else AS3935_ADDRESS_ADD1_H
  else
    if add0 then AS3935_ADDRESS_ADD0_H else AS3935_ADDRESS_LOW

/-- The set of legal shared-bus device addresses, from
`enum SF_AS3935_I2C_ADDRESS`. -/
def legalAddresses : Finset Nat :=
  {AS3935_DEFAULT_ADDRESS, AS3935_ADDRESS_ADD1_H, AS3935_ADDRESS_ADD0_H, AS3935_ADDRESS_LOW}

/-- Bits at position 8 and above of a byte are clear. -/
theorem testBit_byte_high {x i : Nat} (hx : x < 256) (hi : 8 ≤ i) :
    x.testBit i = false := by
  refine Nat.testBit_lt_two_pow (lt_of_lt_of_le hx ?_)
  calc (256 : Nat) = 2 ^ 8 := rfl
    _ ≤ 2 ^ i := Nat.pow_le_pow_right (by norm_num) hi

/-- Every bit below position 8 of the byte complement base 255 is set. -/
theorem testBit_255_of_lt {i : Nat} (h : i < 8) : Nat.testBit 255 i = true := by
  interval_cases i <;> decide

/-- Unfolding of the byte a masked write stores at the target register. -/
theorem writeRegister_self (regs : RegFile) (reg mask bits sh : Nat) :
    writeRegister regs reg mask bits sh reg =
      (regs reg &&& (255 ^^^ mask)) ||| ((bits <<< sh) &&& mask) := by
  simp [writeRegister, readRegister]

/-- Frame property of the register engine: a masked write leaves every bit
of the target register outside the mask unchanged. -/
theorem writeRegister_testBit_frame (regs : RegFile) (reg mask bits sh i : Nat)
    (hreg : regs reg < 256) (hmask : mask.testBit i = false) :
    (writeRegister regs reg mask bits sh reg).testBit i = (regs reg).testBit i := by
  rw [writeRegister_self]
  simp only [Nat.testBit_or, Nat.testBit_and, Nat.testBit_xor, hmask, Bool.xor_false,
    Bool.and_false, Bool.or_false]
  by_cases h8 : i < 8
  · rw [testBit_255_of_lt h8, Bool.and_true]
  · rw [testBit_byte_high hreg (le_of_not_lt h8), Bool.false_and]

/-- Inside the mask, a masked write stores exactly the shifted-and-masked
new bits: `(written byte) &&& mask = (bits <<< sh) &&& mask`. -/
theorem writeRegister_and_mask (regs : RegFile) (reg mask bits sh : Nat)
    (hmask : mask < 256) :
    writeRegister regs reg mask bits sh reg &&& mask = (bits <<< sh) &&& mask := by
  rw [writeRegister_self]
  refine Nat.eq_of_testBit_eq fun i => ?_
  simp only [Nat.testBit_or, Nat.testBit_and, Nat.testBit_xor]
  cases hm : mask.testBit i with
  | false => simp
  | true =>
    have hi8 : i < 8 := by
      by_contra h
      rw [testBit_byte_high hmask (le_of_not_lt h)] at hm
      exact Bool.false_ne_true hm
    rw [testBit_255_of_lt hi8]
    simp

/-- Field extraction after a masked write: when the shifted value fits in
the mask, reading the register back and isolating the field returns the
written value. -/
theorem writeRegister_extract (regs : RegFile) (reg mask bits sh : Nat)
    (hmask : mask < 256) (hfit : (bits <<< sh) &&& mask = bits <<< sh) :
    (writeRegister regs reg mask bits sh reg &&& mask) >>> sh = bits := by
  rw [writeRegister_and_mask regs reg mask bits sh hmask, hfit, Nat.shiftLeft_shiftRight]

/-- C1: for every register address, mask, value and shift, `writeRegister`
performs a read-modify-write in which every bit of the target register
outside the mask is bit-for-bit unchanged after the call; only bits
selected by the mask may differ. -/
theorem writeRegister_frame_effect (regs : RegFile) (reg mask bits sh i : Nat)
    (hreg : regs reg < 256) (hmask : mask.testBit i = false) :
    (writeRegister regs reg mask bits sh reg).testBit i = (regs reg).testBit i :=
  writeRegister_testBit_frame regs reg mask bits sh i hreg hmask

/-- Witness for C1 at a concrete register file: writing field bits [5:4]
of register 2 leaves bit 0 of the stored byte 0xA5 unchanged. -/
theorem writeRegister_frame_effect_witness :
    (0xA5 : Nat) < 256 ∧ Nat.testBit 0x30 0 = false ∧
      (writeRegister (fun _ => 0xA5) 2 0x30 7 4 2).testBit 0 = Nat.testBit 0xA5 0 :=
  ⟨by decide, by decide, writeRegister_frame_effect (fun _ => 0xA5) 2 0x30 7 4 0
    (by decide) (by decide)⟩

/-- C2 counterexample: at LSB = 0xFF, MSB = 0xFF, MMSB = 0x1F the composed
energy value is 0x1FFFFF, not 0xFFFFF, and it does not fit in 20 bits, so
the claim's concrete-value and 20-bit clauses fail on the composition
formula itself. -/
theorem lightningEnergy_claim_counterexample :
    lightningEnergy (energyRegs 0xFF 0xFF 0x1F) = 0x1FFFFF ∧
      lightningEnergy (energyRegs 0xFF 0xFF 0x1F) ≠ 0xFFFFF ∧
      ¬ lightningEnergy (energyRegs 0xFF 0xFF 0x1F) < 2 ^ 20 := by
  refine ⟨by decide, by decide, by decide⟩

/-- C2 (amended): for register bytes LSB, MSB, MMSB, `lightningEnergy`
returns exactly `LSB ||| (MSB <<< 8) ||| ((MMSB &&& 0x1F) <<< 16)`; bits
[7:5] of MMSB never influence the result, and the result always fits in
21 bits (its maximum, at LSB = MSB = 0xFF and MMSB = 0x1F, is 0x1FFFFF). -/
theorem lightningEnergy_amended (l m mm : Nat) (hl : l < 256) (hm : m < 256) :
    lightningEnergy (energyRegs l m mm) = l ||| (m <<< 8) ||| ((mm &&& 0x1F) <<< 16) ∧
      lightningEnergy (energyRegs l m mm) = lightningEnergy (energyRegs l m (mm &&& 0x1F)) ∧
      lightningEnergy (energyRegs l m mm) < 2 ^ 21 := by
  have hunf : lightningEnergy (energyRegs l m mm) =
      l ||| (m <<< 8) ||| ((mm &&& 0x1F) <<< 16) := by
    simp [lightningEnergy, energyRegs, readRegister, ENERGY_LIGHT_LSB, ENERGY_LIGHT_MSB,
      ENERGY_LIGHT_MMSB]
  have hunf2 : lightningEnergy (energyRegs l m (mm &&& 0x1F)) =
      l ||| (m <<< 8) ||| ((mm &&& 0x1F &&& 0x1F) <<< 16) := by
    simp [lightningEnergy, energyRegs, readRegister, ENERGY_LIGHT_LSB, ENERGY_LIGHT_MSB,
      ENERGY_LIGHT_MMSB]
  refine ⟨hunf, ?_, ?_⟩
  · rw [hunf, hunf2, Nat.and_assoc, show (31 : Nat) &&& 31 = 31 from by decide]
  · rw [hunf]
    have h1 : l < 2 ^ 21 := lt_trans hl (by norm_num)
    have h2 : m <<< 8 < 2 ^ 21 := by
      rw [Nat.shiftLeft_eq]
      calc m * 2 ^ 8 < 256 * 2 ^ 8 := by
            exact Nat.mul_lt_mul_of_lt_of_le hm (le_refl _) (by norm_num)
        _ ≤ 2 ^ 21 := by norm_num
    have h3 : (mm &&& 0x1F) <<< 16 < 2 ^ 21 := by
      rw [Nat.shiftLeft_eq]
      have hmm : mm &&& 0x1F ≤ 0x1F := Nat.and_le_right
      calc (mm &&& 0x1F) * 2 ^ 16 ≤ 0x1F * 2 ^ 16 :=
            Nat.mul_le_mul_right _ hmm
        _ < 2 ^ 21 := by norm_num
    exact Nat.or_lt_two_pow (Nat.or_lt_two_pow h1 h2) h3

/-- Witness for C2's amended theorem at the maximal fragment bytes. -/
theorem lightningEnergy_amended_witness :
    (0xFF : Nat) < 256 ∧
      (lightningEnergy (energyRegs 0xFF 0xFF 0x1F) =
          0xFF ||| (0xFF <<< 8) ||| ((0x1F &&& 0x1F) <<< 16) ∧
        lightningEnergy (energyRegs 0xFF 0xFF 0x1F) =
          lightningEnergy (energyRegs 0xFF 0xFF (0x1F &&& 0x1F)) ∧
        lightningEnergy (energyRegs 0xFF 0xFF 0x1F) < 2 ^ 21) :=
  ⟨by decide, lightningEnergy_amended 0xFF 0xFF 0x1F (by decide) (by decide)⟩

/-- C3: `wakeUp` clears the power-down bit, writes the direct-command byte
0x96 to the oscillator-calibration register 0x3D, waits the fixed 2 ms
delay, performs exactly one read of the calibration-status register, and
returns true if and only if the recalibration-complete bit is set in that
read. -/
theorem wakeUp_spec (regs : RegFile) (calibStatus : Nat) :
    ((wakeUp regs calibStatus).regs AFE_GAIN).testBit 0 = false ∧
      (wakeUp regs calibStatus).regs CALIB_RCO = DIRECT_COMMAND ∧
      (wakeUp regs calibStatus).delayMs = 2 ∧
      (wakeUp regs calibStatus).statusReads = 1 ∧
      ((wakeUp regs calibStatus).ok = true ↔ calibStatus.testBit 7 = true) := by
  refine ⟨?_, ?_, rfl, rfl, Iff.rfl⟩
  · have hne : AFE_GAIN ≠ CALIB_RCO := by decide
    show (writeRegister (writeRegister regs AFE_GAIN 0x01 0 0) CALIB_RCO 0xFF
        DIRECT_COMMAND 0 AFE_GAIN).testBit 0 = false
    rw [show writeRegister (writeRegister regs AFE_GAIN 0x01 0 0) CALIB_RCO 0xFF
        DIRECT_COMMAND 0 AFE_GAIN = writeRegister regs AFE_GAIN 0x01 0 0 AFE_GAIN from
      if_neg hne]
    rw [writeRegister_self]
    simp [Nat.testBit_or, Nat.testBit_and]
  · show writeRegister (writeRegister regs AFE_GAIN 0x01 0 0) CALIB_RCO 0xFF
        DIRECT_COMMAND 0 CALIB_RCO = DIRECT_COMMAND
    rw [writeRegister_self]
    have h255 : (255 : Nat) ^^^ 255 = 0 := by decide
    simp [h255, DIRECT_COMMAND, show (150 : Nat) &&& 255 = 150 from by decide]

/-- C4: writing a value that fits the field selected by an operation's mask
and shift, then reading the underlying register back and isolating that
field, returns the written value (write-then-read round-trip on the masked
field). -/
theorem registerField_roundtrip (regs : RegFile) (reg mask v sh : Nat)
    (hmask : mask < 256) (hfit : (v <<< sh) &&& mask = v <<< sh) :
    (readRegister (writeRegister regs reg mask v sh) reg 1 &&& mask) >>> sh = v :=
  writeRegister_extract regs reg mask v sh hmask hfit

/-- Witness for C4: `watchdogThreshold` with sensitivity 3 round-trips
through register REG0x01's bits [3:0]. -/
theorem registerField_roundtrip_witness :
    (SPIKE_MASK < 256 ∧ ((3 : Nat) <<< 0) &&& SPIKE_MASK = 3 <<< 0) ∧
      (readRegister (watchdogThreshold (fun _ => 0xA5) 3) THRESHOLD 1 &&& SPIKE_MASK) >>> 0 = 3 :=
  ⟨⟨by decide, by decide⟩,
    registerField_roundtrip (fun _ => 0xA5) THRESHOLD SPIKE_MASK 3 0 (by decide) (by decide)⟩

/-- C5: for every byte held in the interrupt register, `readInterruptReg`
returns that byte masked down to exactly the three status bits 0x01, 0x04,
0x08, so every bit of the returned value outside positions 0, 2 and 3 is
zero. -/
theorem readInterruptReg_status_bits (regs : RegFile) (i : Nat)
    (h0 : i ≠ 0) (h2 : i ≠ 2) (h3 : i ≠ 3) :
    (readInterruptReg regs).testBit i = false := by
  have hmask : (NOISE_TO_HIGH ||| DISTURBER_DETECT ||| LIGHTNING : Nat) = 13 := by decide
  have h13 : Nat.testBit 13 i = false := by
    rcases Nat.lt_or_ge i 4 with h4 | h4
    · interval_cases i
      · exact absurd rfl h0
      · decide
      · exact absurd rfl h2
      · exact absurd rfl h3
    · exact Nat.testBit_lt_two_pow
        (lt_of_lt_of_le (by norm_num) (Nat.pow_le_pow_right (by norm_num) h4))
  simp [readInterruptReg, readRegister, hmask, Nat.testBit_and, h13]

/-- Witness for C5: bit 5 of the masked interrupt value is clear even when
every bit of the raw register byte is set. -/
theorem readInterruptReg_status_bits_witness :
    ((5 : Nat) ≠ 0 ∧ (5 : Nat) ≠ 2 ∧ (5 : Nat) ≠ 3) ∧
      (readInterruptReg (fun _ => 0xFF)).testBit 5 = false :=
  ⟨⟨by decide, by decide, by decide⟩,
    readInterruptReg_status_bits (fun _ => 0xFF) 5 (by decide) (by decide) (by decide)⟩

/-- C6: the set of legal shared-bus device addresses contains exactly four
pairwise-distinct values, and it is exactly the image of the four
address-select pin combinations under the documented encoding — so no
fifth address value is accepted. -/
theorem i2c_address_space :
    legalAddresses.card = 4 ∧
      legalAddresses = Finset.image (fun p : Bool × Bool => addressFor p.1 p.2) Finset.univ ∧
      ([AS3935_ADDRESS_LOW, AS3935_ADDRESS_ADD0_H, AS3935_ADDRESS_ADD1_H,
        AS3935_DEFAULT_ADDRESS] : List Nat).Nodup := by
  refine ⟨by decide, by decide, by decide⟩

/-- C7: `beginSPI` configures the chip-select line as an output held high
between transactions, succeeds exactly when the handshake read matches the
expected pattern, and writes nothing to the chip — so an unresponsive
device yields failure with no partial configuration applied. -/
theorem beginSPI_spec (s : SPISetup) (user_CSPin spiPortSpeed handshakeByte expected : Nat) :
    (beginSPI s user_CSPin spiPortSpeed handshakeByte expected).1.csIsOutput = true ∧
      (beginSPI s user_CSPin spiPortSpeed handshakeByte expected).1.csHigh = true ∧
      ((beginSPI s user_CSPin spiPortSpeed handshakeByte expected).2 = true ↔
        handshakeByte = expected) ∧
      (beginSPI s user_CSPin spiPortSpeed handshakeByte expected).1.chip = s.chip := by
  refine ⟨rfl, rfl, ?_, rfl⟩
  simp [beginSPI]

/-- C8: `lightningThreshold` only ever writes a strike count drawn from the
legal set {1, 5, 9, 16} — after a legal write the REG0x02 bits [5:4] field
decodes back to exactly the requested count — and for any other input the
registers, in particular the lightning register field, are left unchanged. -/
theorem lightningThreshold_legal (regs : RegFile) (strikes : Nat) :
    (strikes = 1 ∨ strikes = 5 ∨ strikes = 9 ∨ strikes = 16 →
      strikeCount ((lightningThreshold regs strikes LIGHTNING_REG &&& 0x30) >>> 4) = strikes) ∧
      (¬(strikes = 1 ∨ strikes = 5 ∨ strikes = 9 ∨ strikes = 16) →
        lightningThreshold regs strikes = regs) := by
  constructor
  · rintro (rfl | rfl | rfl | rfl)
    · rw [show lightningThreshold regs 1 = writeRegister regs LIGHTNING_REG 0x30 0 4 from rfl,
        writeRegister_extract regs LIGHTNING_REG 0x30 0 4 (by decide) (by decide)]
      decide
    · rw [show lightningThreshold regs 5 = writeRegister regs LIGHTNING_REG 0x30 1 4 from rfl,
        writeRegister_extract regs LIGHTNING_REG 0x30 1 4 (by decide) (by decide)]
      decide
    · rw [show lightningThreshold regs 9 = writeRegister regs LIGHTNING_REG 0x30 2 4 from rfl,
        writeRegister_extract regs LIGHTNING_REG 0x30 2 4 (by decide) (by decide)]
      decide
    · rw [show lightningThreshold regs 16 = writeRegister regs LIGHTNING_REG 0x30 3 4 from rfl,
        writeRegister_extract regs LIGHTNING_REG 0x30 3 4 (by decide) (by decide)]
      decide
  · intro h
    push_neg at h
    obtain ⟨h1, h5, h9, h16⟩ := h
    simp [lightningThreshold, h1, h5, h9, h16]

/-- Witness for C8: a legal request of 5 strikes decodes back to 5, and an
illegal request of 2 strikes leaves the register file untouched. -/
theorem lightningThreshold_legal_witness :
    strikeCount ((lightningThreshold (fun _ => 0xFF) 5 LIGHTNING_REG &&& 0x30) >>> 4) = 5 ∧
      lightningThreshold (fun _ => 0xFF) 2 = (fun _ => (0xFF : Nat)) :=
  ⟨(lightningThreshold_legal (fun _ => 0xFF) 5).1 (Or.inr (Or.inl rfl)),
    (lightningThreshold_legal (fun _ => 0xFF) 2).2 (by decide)⟩

/-- C9: for every byte held in the distance register, `distanceToStorm`
returns a value fitting the 6-bit distance field: at most 63, with bits 6
and 7 clear. -/
theorem distanceToStorm_six_bits (regs : RegFile) :
    distanceToStorm regs ≤ 63 ∧ (distanceToStorm regs).testBit 6 = false ∧
      (distanceToStorm regs).testBit 7 = false := by
  have hm : (255 : Nat) ^^^ DISTANCE_MASK = 63 := by decide
  unfold distanceToStorm readRegister
  rw [hm]
  refine ⟨Nat.and_le_right, ?_, ?_⟩
  · simp [Nat.testBit_and, show Nat.testBit 63 6 = false from by decide]
  · simp [Nat.testBit_and, show Nat.testBit 63 7 = false from by decide]

/-- C10: the mode constants INDOOR (0x12) and OUTDOOR (0x0E) fit the 5-bit
AFE gain field, and for either constant `setIndoorOutdoor` modifies only
bits [5:1] of register 0x00 — every bit at position 0 or at position 6 and
above, in particular the power-down bit, is unchanged. -/
theorem setIndoorOutdoor_frame (regs : RegFile) (setting i : Nat)
    (hreg : regs AFE_GAIN < 256) (_hset : setting = INDOOR ∨ setting = OUTDOOR)
    (hi : i = 0 ∨ 6 ≤ i) :
    INDOOR < 32 ∧ OUTDOOR < 32 ∧
      (setIndoorOutdoor regs setting AFE_GAIN).testBit i = (regs AFE_GAIN).testBit i := by
  refine ⟨by decide, by decide, ?_⟩
  have hbit : Nat.testBit 0x3E i = false := by
    rcases hi with rfl | h6
    · decide
    · exact Nat.testBit_lt_two_pow
        (lt_of_lt_of_le (by norm_num) (Nat.pow_le_pow_right (by norm_num) h6))
  exact writeRegister_testBit_frame regs AFE_GAIN 0x3E setting 1 i hreg hbit

/-- Witness for C10: switching a powered-up chip byte 0x81 to INDOOR leaves
the power-down bit (bit 0) unchanged. -/
theorem setIndoorOutdoor_frame_witness :
    ((0x81 : Nat) < 256) ∧
      (INDOOR < 32 ∧ OUTDOOR < 32 ∧
        (setIndoorOutdoor (fun _ => 0x81) INDOOR AFE_GAIN).testBit 0 = Nat.testBit 0x81 0) :=
  ⟨by decide,
    setIndoorOutdoor_frame (fun _ => 0x81) INDOOR 0 (by decide) (Or.inl rfl) (Or.inl rfl)⟩

end AS3935
